import Mathlib

/-
Formal model of the BigQuery database-agent tools
(`data_science/sub_agents/bigquery/tools.py`): the SQL value serializer
`_serialize_value_for_sql`, the schema introspector `get_bigquery_schema`,
and the query validator `run_bigquery_validation` with its inner
`cleanup_sql`.  Python strings are modelled as `List Char` (with `String`
wrappers at the interfaces); Python exceptions are modelled with `Except`;
the BigQuery client is modelled as explicit input data (table descriptors,
sample-fetch outcomes, an execution-outcome function).  Character-level
operations (`str.lower`, the regex word boundary `\b`) are modelled over
ASCII, which covers every string the claims touch.
-/

set_option autoImplicit false

/-! ## Character and string helpers -/

/-- The single-quote character `'`. -/
def squoteC : Char := Char.ofNat 39

/-- The double-quote character `"`. -/
def dquoteC : Char := Char.ofNat 34

/-- The backslash character `\`. -/
def bslashC : Char := Char.ofNat 92

/-- The newline character. -/
def nlC : Char := Char.ofNat 10

/-- The single-quote character as a one-character string. -/
def sqS : String := String.mk [squoteC]

/-- Model of Python `s.replace(t, t + t)` for a single character `t`:
every occurrence of `t` is doubled (left-to-right, the inserted copy is
not rescanned — for single-character patterns this is plain doubling). -/
def doubleChar (t : Char) : List Char → List Char
  | [] => []
  | c :: cs => if c = t then t :: t :: doubleChar t cs else c :: doubleChar t cs

/-- Model of Python `s.replace(t + t, t)` for a single character `t`:
left-to-right, non-overlapping collapse of doubled characters. -/
def collapseChar (t : Char) : List Char → List Char
  | [] => []
  | [c] => [c]
  | c :: d :: cs =>
    if c = t ∧ d = t then t :: collapseChar t cs
    else c :: collapseChar t (d :: cs)

/-- Model of Python `s.replace(a + b, r)` for a two-character pattern `ab`
replaced by the single character `r` (left-to-right, non-overlapping,
replacements are not rescanned). -/
def replace2 (a b r : Char) : List Char → List Char
  | [] => []
  | [c] => [c]
  | c :: d :: cs =>
    if c = a ∧ d = b then r :: replace2 a b r cs
    else c :: replace2 a b r (d :: cs)

/-- The escaping applied by the serializer to text (source line 48):
`value.replace('\\', '\\\\').replace("'", "''")` — double every backslash
first, then double every single quote. -/
def escapeSqlText (s : List Char) : List Char :=
  doubleChar squoteC (doubleChar bslashC s)

/-- Reversal of `escapeSqlText`: undo the two replacements in reverse
order — collapse doubled single quotes first, then doubled backslashes. -/
def unescapeSqlText (s : List Char) : List Char :=
  collapseChar bslashC (collapseChar squoteC s)

/-- Number of (length-respecting) positions of `s` at which the pattern
`p` occurs as a prefix.  For a non-empty pattern without self-overlap
(such as `"limit"`) this is the count of its substring occurrences; it is
positive exactly when Python `p in s` holds. -/
def countOccs (p : List Char) : List Char → Nat
  | [] => if p = [] then 1 else 0
  | c :: cs => (if p.isPrefixOf (c :: cs) then 1 else 0) + countOccs p cs

/-- Model of Python `str.lower()` (ASCII). -/
def lowerChars (s : List Char) : List Char :=
  s.map Char.toLower

/-- Model of the Python regex word class `\w` (ASCII fragment):
letters, digits, underscore. -/
def isWordChar (c : Char) : Bool :=
  c.isAlphanum || c = '_'

/-! ## The value serializer `_serialize_value_for_sql` (source lines 42-61) -/

/-- A Python value reachable from a pandas DataFrame row, as consumed by
`_serialize_value_for_sql`.  `temporal` covers `datetime.datetime`,
`datetime.date` and `pd.Timestamp` and carries the value's `str()` form;
`scalar` covers every other scalar (int, bool, non-NaN float, ...) and
carries its `str()` form; `pynone` covers the scalars on which `pd.isna`
is `True` (`None`, `NaN`, `NaT`). -/
inductive PyValue where
  | pynone
  | str (s : String)
  | bytes (bs : List Nat)
  | temporal (repr : String)
  | list (vs : List PyValue)
  | dict (kvs : List (String × PyValue))
  | scalar (repr : String)

/-- The error message NumPy raises when a multi-element boolean array is
used in a truth-value context. -/
def ambiguousTruthMsg : String :=
  "The truth value of an array with more than one element is ambiguous. Use a.any() or a.all()"

/-- Model of the Python expression `bool(pd.isna(value))`, i.e. the truth
value of the `if pd.isna(value)` guard at source line 44.  On scalars
`pd.isna` returns a plain bool (`True` only for None/NaN/NaT; `False` for
dicts, which pandas does not treat as array-like here).  On lists and
arrays it returns an ELEMENTWISE boolean array, whose coercion to `bool`
raises `ValueError` unless the array has exactly one element; with one
element the truth value is that element's (recursive, by broadcasting)
`isna` value. -/
def pdIsnaTruth : PyValue → Except String Bool
  | .pynone => .ok true
  | .list vs =>
    match vs with
    | [v] => pdIsnaTruth v
    | _ => .error ambiguousTruthMsg
  | _ => .ok false

/-- The Unicode replacement character, emitted by `bytes.decode('utf-8',
'replace')` for invalid byte sequences. -/
def replacementChar : Char := Char.ofNat 0xFFFD

/-- Whether a byte is a UTF-8 continuation byte. -/
def isContByte (b : Nat) : Bool :=
  decide (0x80 ≤ b) && decide (b ≤ 0xBF)

/-- Model of Python `bytes.decode('utf-8', 'replace')`: permissive UTF-8
decoding, substituting the replacement character for malformed sequences
(the exact number of replacement characters per malformed run follows
this model rather than CPython's maximal-subpart rule; no claim depends
on that detail). -/
def utf8DecodeReplace : List Nat → List Char
  | [] => []
  | b :: bs =>
    if b < 0x80 then Char.ofNat b :: utf8DecodeReplace bs
    else if decide (0xC2 ≤ b) && decide (b ≤ 0xDF) then
      match bs with
      | b2 :: bs2 =>
        if isContByte b2 then
          Char.ofNat ((b % 32) * 64 + b2 % 64) :: utf8DecodeReplace bs2
        else replacementChar :: utf8DecodeReplace (b2 :: bs2)
      | [] => [replacementChar]
    else if decide (0xE0 ≤ b) && decide (b ≤ 0xEF) then
      match bs with
      | b2 :: b3 :: bs3 =>
        if isContByte b2 && isContByte b3
            && decide (0x800 ≤ (b % 16) * 4096 + (b2 % 64) * 64 + b3 % 64)
            && !(decide (0xD800 ≤ (b % 16) * 4096 + (b2 % 64) * 64 + b3 % 64)
                 && decide ((b % 16) * 4096 + (b2 % 64) * 64 + b3 % 64 ≤ 0xDFFF)) then
          Char.ofNat ((b % 16) * 4096 + (b2 % 64) * 64 + b3 % 64) :: utf8DecodeReplace bs3
        else replacementChar :: utf8DecodeReplace (b2 :: b3 :: bs3)
      | [_] => [replacementChar]
      | [] => [replacementChar]
    else if decide (0xF0 ≤ b) && decide (b ≤ 0xF4) then
      match bs with
      | b2 :: b3 :: b4 :: bs4 =>
        if isContByte b2 && isContByte b3 && isContByte b4
            && decide (0x10000 ≤ (b % 8) * 262144 + (b2 % 64) * 4096 + (b3 % 64) * 64 + b4 % 64)
            && decide ((b % 8) * 262144 + (b2 % 64) * 4096 + (b3 % 64) * 64 + b4 % 64 ≤ 0x10FFFF) then
          Char.ofNat ((b % 8) * 262144 + (b2 % 64) * 4096 + (b3 % 64) * 64 + b4 % 64)
            :: utf8DecodeReplace bs4
        else replacementChar :: utf8DecodeReplace (b2 :: b3 :: b4 :: bs4)
      | [_, _] => [replacementChar]
      | [_] => [replacementChar]
      | [] => [replacementChar]
    else replacementChar :: utf8DecodeReplace bs
termination_by l => l.length
decreasing_by all_goals simp_wf; all_goals omega

mutual

/-- Model of `_serialize_value_for_sql` (source lines 42-61).  The guard
`if pd.isna(value)` runs first and can itself raise (see `pdIsnaTruth`);
then the isinstance chain dispatches on the value's type.  A raised
exception propagates to the caller as `.error`.  On non-list values
`pdIsnaTruth` is `.ok true` exactly for `.pynone` and `.ok false`
otherwise, so the dispatch below inlines the guard per constructor. -/
def _serialize_value_for_sql : PyValue → Except String String
  | .pynone => .ok "NULL"
  | .str s => .ok (sqS ++ String.mk (escapeSqlText s.data) ++ sqS)
  | .bytes bs =>
    .ok ("b" ++ sqS ++ String.mk (escapeSqlText (utf8DecodeReplace bs)) ++ sqS)
  | .temporal r => .ok (sqS ++ r ++ sqS)
  | .list vs =>
    match pdIsnaTruth (.list vs) with
    | .error e => .error e
    | .ok true => .ok "NULL"
    | .ok false =>
      match serializeElems vs with
      | .error e => .error e
      | .ok parts => .ok ("[" ++ String.intercalate ", " parts ++ "]")
  | .dict kvs =>
    match serializeFieldVals kvs with
    | .error e => .error e
    | .ok parts => .ok ("(" ++ String.intercalate ", " parts ++ ")")
  | .scalar r => .ok r

/-- Serialization of the elements of a list/array value, left to right,
stopping at the first raised exception (Python's generator inside
`', '.join(...)`). -/
def serializeElems : List PyValue → Except String (List String)
  | [] => .ok []
  | v :: vs =>
    match _serialize_value_for_sql v with
    | .error e => .error e
    | .ok s =>
      match serializeElems vs with
      | .error e => .error e
      | .ok ss => .ok (s :: ss)

/-- Serialization of `value.values()` of a dict value, in declared field
order (keys are never emitted). -/
def serializeFieldVals : List (String × PyValue) → Except String (List String)
  | [] => .ok []
  | (_, v) :: kvs =>
    match _serialize_value_for_sql v with
    | .error e => .error e
    | .ok s =>
      match serializeFieldVals kvs with
      | .error e => .error e
      | .ok ss => .ok (s :: ss)

end

/-! ## The query validator `run_bigquery_validation` (source lines 295-399) -/

/-- The row cap (source line 39). -/
def MAX_NUM_ROWS : Nat := 80

/-- A value in a BigQuery result row, as seen by the row-shaping
comprehension (source lines 369-381).  `date` is a `datetime.date`
(date-only); `datetime` is a `datetime.datetime` or `pd.Timestamp`, which
in Python IS an instance of `datetime.date` (subclass), and carries its
time component separately; `other` covers every non-date value via its
representation. -/
inductive BQValue where
  | date (y m d : Nat)
  | datetime (y m d : Nat) (time : String)
  | str (s : String)
  | other (repr : String)
deriving DecidableEq

/-- A result row: `row.items()`, an ordered mapping column-name → value. -/
abbrev BQRow := List (String × BQValue)

/-- Model of Python `isinstance(value, datetime.date)`: true for
`datetime.date` AND for `datetime.datetime` / `pd.Timestamp` values,
because `datetime.datetime` is a subclass of `datetime.date`. -/
def isinstanceDate : BQValue → Bool
  | .date _ _ _ => true
  | .datetime _ _ _ _ => true
  | _ => false

/-- Zero-padded two-digit rendering of a number, as `%m` / `%d`. -/
def pad2 (n : Nat) : String :=
  if n < 10 then "0" ++ toString n else toString n

/-- Zero-padded four-digit rendering of a year, as `%Y`. -/
def pad4 (n : Nat) : String :=
  if n < 10 then "000" ++ toString n
  else if n < 100 then "00" ++ toString n
  else if n < 1000 then "0" ++ toString n
  else toString n

/-- Model of `value.strftime("%Y-%m-%d")` on a date or datetime value:
only the date part is rendered. -/
def strftimeYMD : BQValue → String
  | .date y m d => pad4 y ++ "-" ++ pad2 m ++ "-" ++ pad2 d
  | .datetime y m d _ => pad4 y ++ "-" ++ pad2 m ++ "-" ++ pad2 d
  | _ => ""

/-- The per-value shaping in the row comprehension (source lines 371-375):
`value if not isinstance(value, datetime.date) else
value.strftime("%Y-%m-%d")`. -/
def shapeValue (v : BQValue) : BQValue :=
  if isinstanceDate v then .str (strftimeYMD v) else v

/-- The per-row shaping: shape every value, keep keys and order. -/
def shapeRow (r : BQRow) : BQRow :=
  r.map (fun kv => (kv.1, shapeValue kv.2))

/-- The characters of the token `"limit"`. -/
def limitChars : List Char := ['l', 'i', 'm', 'i', 't']

/-- The four textual repairs of `cleanup_sql` (source lines 331-341), in
order: unescape `\"`, drop a backslash before a newline, unescape `\'`,
turn the two-character sequence `\n` into a real newline. -/
def preCleanChars (s : List Char) : List Char :=
  replace2 bslashC 'n' nlC
    (replace2 bslashC squoteC squoteC
      (replace2 bslashC nlC nlC
        (replace2 bslashC dquoteC dquoteC s)))

/-- Model of `cleanup_sql` (source lines 328-347): the four repairs, then
`if "limit" not in sql_string.lower(): sql_string += " limit " +
str(MAX_NUM_ROWS)`. -/
def cleanup_sql (s : String) : String :=
  let cs := preCleanChars s.data
  if countOccs limitChars (lowerChars cs) = 0 then
    String.mk (cs ++ (" limit " ++ toString MAX_NUM_ROWS).data)
  else String.mk cs

/-- The eight disallowed keywords of the safety gate (source line 357). -/
def dmlKeywords : List (List Char) :=
  ["update".data, "delete".data, "drop".data, "insert".data,
   "create".data, "alter".data, "truncate".data, "merge".data]

/-- Whether the pattern `k` (given in lowercase) matches case-insensitively
at position `i` of `s` with regex word boundaries `\b` on both sides:
the character before position `i` (if any) and the character after the
match (if any) are not word characters. -/
def matchAt (s : List Char) (i : Nat) (k : List Char) : Bool :=
  (((s.drop i).take k.length).map Char.toLower == k)
  && (decide (i = 0) || !isWordChar (s.getD (i - 1) ' '))
  && (decide (s.length ≤ i + k.length) || !isWordChar (s.getD (i + k.length) ' '))

/-- Model of
`re.search(r"(?i)\b(update|delete|drop|insert|create|alter|truncate|merge)\b", s)`
(source lines 356-358): some keyword matches at some position. -/
def hasDisallowed (s : List Char) : Bool :=
  (List.range s.length).any (fun i => dmlKeywords.any (fun k => matchAt s i k))

/-- The outcome of running a query on the BigQuery client: either the
`query(...)`/`result()` calls raise (carrying `str(e)`), or they succeed
with a column schema (field names; empty list models a falsy
`results.schema`) and a list of rows. -/
inductive ExecOutcome where
  | fault (msg : String)
  | success (schema : List String) (rows : List BQRow)

/-- The returned dictionary `{"query_result": ..., "error_message": ...}`
(source line 353). -/
structure FinalResult where
  query_result : Option (List BQRow)
  error_message : Option String
deriving DecidableEq

/-- One call of `run_bigquery_validation`: the returned dictionary, the
tool-context session state after the call, and whether the execution
backend (`get_bq_client().query(...)`) was invoked at all. -/
structure ValidationRun where
  result : FinalResult
  state : List (String × List BQRow)
  backendInvoked : Bool
deriving DecidableEq

/-- Python dict assignment `state[k] = v` on the session state, modelled
on an association list (newest binding first). -/
def stateSet (st : List (String × List BQRow)) (k : String) (v : List BQRow) :
    List (String × List BQRow) :=
  (k, v) :: st.filter (fun p => p.1 ≠ k)

/-- Model of `run_bigquery_validation` (source lines 295-399): clean the
SQL, reject disallowed DML/DDL keywords before any execution, otherwise
run the query (`backend`); a raised execution fault becomes an error
result; a result without column schema becomes the informational
no-results message; otherwise rows are shaped, truncated to
`MAX_NUM_ROWS`, returned, and written to the session state under
`"query_result"`. -/
def run_bigquery_validation (sql : String) (backend : String → ExecOutcome)
    (state : List (String × List BQRow)) : ValidationRun :=
  let cleaned := cleanup_sql sql
  if hasDisallowed cleaned.data then
    { result := { query_result := none,
                  error_message := some "Invalid SQL: Contains disallowed DML/DDL operations." },
      state := state, backendInvoked := false }
  else
    match backend cleaned with
    | .fault m =>
      { result := { query_result := none, error_message := some ("Invalid SQL: " ++ m) },
        state := state, backendInvoked := true }
    | .success schema resultRows =>
      if schema.isEmpty then
        { result := { query_result := none,
                      error_message := some "Valid SQL. Query executed successfully (no results)." },
          state := state, backendInvoked := true }
      else
        { result := { query_result := some ((resultRows.map shapeRow).take MAX_NUM_ROWS),
                      error_message := none },
          state := stateSet state "query_result" ((resultRows.map shapeRow).take MAX_NUM_ROWS),
          backendInvoked := true }

/-! ## The schema introspector `get_bigquery_schema` (source lines 104-223) -/

/-- One field of a table schema, as read off `table_obj.schema`:
`field_type` and `mode` are the strings BigQuery reports (mode is
`"NULLABLE"`, `"REQUIRED"` or `"REPEATED"`); `description` is optional
(Python truthiness treats `None` and `""` alike). -/
structure SchemaField where
  name : String
  field_type : String
  mode : String
  description : Option String
deriving DecidableEq

/-- The `external_data_configuration` of an external table. -/
structure ExternalConfig where
  source_format : String
  connection_id : String
  source_uris : List String
deriving DecidableEq

/-- A table descriptor as returned by `client.get_table`:
`table_type` is the string BigQuery reports (`"TABLE"`, `"VIEW"`,
`"EXTERNAL"`, `"MATERIALIZED_VIEW"`, ...). -/
structure TableObj where
  name : String
  table_type : String
  schema : List SchemaField
  view_query : String
  external_data_configuration : Option ExternalConfig
deriving DecidableEq

/-- Outcome of the per-table sample-row fetch
`client.query(f"SELECT * FROM `{table_ref}` LIMIT 5").to_dataframe()`:
either the rows (as lists of values, in column order), or a raised
exception. -/
inductive SampleResult where
  | ok (rows : List (List PyValue))
  | failure (msg : String)

/-- `str(table_ref)`: the fully qualified `project.dataset.table` name. -/
def tableRefStr (proj ds name : String) : String :=
  proj ++ "." ++ ds ++ "." ++ name

/-- `table_ref.path`: the REST resource path of the table reference. -/
def tablePath (proj ds name : String) : String :=
  "/projects/" ++ proj ++ "/datasets/" ++ ds ++ "/tables/" ++ name

/-- Column type rendering (source lines 160-163 and 179-182): a
`REPEATED` column renders as `ARRAY<type>`. -/
def renderColType (f : SchemaField) : String :=
  if f.mode = "REPEATED" then "ARRAY<" ++ f.field_type ++ ">" else f.field_type

/-- One column definition of a `CREATE OR REPLACE TABLE` statement
(source lines 183-190), with the optional description embedded in an
`OPTIONS` clause (quotes doubled); Python `if field.description:` is
false for `None` and for the empty string. -/
def colDef (f : SchemaField) : String :=
  let base := "  `" ++ f.name ++ "` " ++ renderColType f
  match f.description with
  | some d =>
    if d ≠ "" then
      base ++ " OPTIONS(description=" ++ sqS ++ String.mk (doubleChar squoteC d.data) ++ sqS ++ ")"
    else base
  | none => base

/-- The `CREATE OR REPLACE TABLE` statement (source lines 192-195). -/
def createTableStmt (tref : String) (tbl : TableObj) : String :=
  "CREATE OR REPLACE TABLE `" ++ tref ++ "` (\n"
    ++ String.intercalate ",\n" (tbl.schema.map colDef) ++ "\n);\n\n"

/-- The failure-note comment appended when sample rows could not be
retrieved (source line 216). -/
def sampleNote (tpath : String) : String :=
  "-- NOTE: Could not retrieve sample rows for table " ++ tpath ++ ".\n\n"

/-- `", ".join(_serialize_value_for_sql(v) for v in row.values)`:
serialize one sample row's values left to right, propagating the first
raised exception. -/
def serializeRowVals (row : List PyValue) : Except String String :=
  match serializeElems row with
  | .error e => .error e
  | .ok parts => .ok (String.intercalate ", " parts)

/-- The `INSERT` statements for the sample rows (source lines 205-211),
accumulated left to right.  If serializing some row raises, the rows
already rendered are kept (they were appended before the exception) and
the flag is `false` (the `except` clause will add the failure note). -/
def insertRows (tref : String) : List (List PyValue) → String × Bool
  | [] => ("", true)
  | r :: rs =>
    match serializeRowVals r with
    | .error _ => ("", false)
    | .ok vs =>
      let (rest, okRest) := insertRows tref rs
      ("INSERT INTO `" ++ tref ++ "` VALUES (" ++ vs ++ ");\n\n" ++ rest, okRest)

/-- The sample-values part of a TABLE block (the `try`/`except` of source
lines 199-216): on fetch failure, just the note; on success with no rows,
nothing; otherwise the example-values header and the `INSERT` statements,
with the note appended when serialization raised midway. -/
def sampleBlock (tref tpath : String) : SampleResult → String
  | .failure _ => sampleNote tpath
  | .ok rows =>
    if rows.isEmpty then ""
    else
      let (txt, okAll) := insertRows tref rows
      "-- Example values for table `" ++ tref ++ "`:\n" ++ txt
        ++ (if okAll then "" else sampleNote tpath)

/-- The text block one listed table contributes to the DDL document
(the body of the `for table_row in query_job.result()` loop, source
lines 137-221). -/
def tableBlock (proj ds : String) (t : TableObj × SampleResult) : String :=
  let tbl := t.1
  let tref := tableRefStr proj ds tbl.name
  if tbl.table_type = "VIEW" then
    "CREATE OR REPLACE VIEW `" ++ tref ++ "` AS\n" ++ tbl.view_query ++ ";\n\n"
  else if tbl.table_type = "EXTERNAL" then
    match tbl.external_data_configuration with
    | some cfg =>
      if cfg.source_format = "ICEBERG" then
        "CREATE EXTERNAL TABLE `" ++ tref ++ "` (\n"
          ++ String.intercalate ",\n"
              (tbl.schema.map (fun f => "  `" ++ f.name ++ "` " ++ renderColType f))
          ++ "\n)\nWITH CONNECTION `" ++ cfg.connection_id ++ "`\nOPTIONS (\n  uris = ["
          ++ String.intercalate ",\n    " (cfg.source_uris.map (fun u => sqS ++ u ++ sqS))
          ++ "],\n  format = " ++ sqS ++ "ICEBERG" ++ sqS ++ "\n);\n\n"
      else ""
    | none => ""
  else if tbl.table_type = "TABLE" then
    createTableStmt tref tbl ++ sampleBlock tref (tablePath proj ds tbl.name) t.2
  else ""

/-- Model of `get_bigquery_schema` (source lines 104-223) after a
successful table listing: the listed tables are processed in order, each
appending its block to the accumulated DDL text.  (A failure of the
listing query itself propagates in the source and is outside this
function's input.) -/
def get_bigquery_schema (proj ds : String) : List (TableObj × SampleResult) → String
  | [] => ""
  | t :: ts => tableBlock proj ds t ++ get_bigquery_schema proj ds ts

/-- Concrete TABLE descriptor from the spec's end-to-end example: one
REPEATED INT64 column named `scores`. -/
def sampleTbl : TableObj :=
  ⟨"t", "TABLE", [⟨"scores", "INT64", "REPEATED", none⟩], "", none⟩

/-! ## Helper lemmas -/

theorem collapseChar_cons_of_ne (t c : Char) (l : List Char) (h : c ≠ t) :
    collapseChar t (c :: l) = c :: collapseChar t l := by
  cases l with
  | nil => rfl
  | cons d l' => simp [collapseChar, h]

theorem collapseChar_doubleChar (t : Char) (s : List Char) :
    collapseChar t (doubleChar t s) = s := by
  induction s with
  | nil => rfl
  | cons c cs ih =>
    by_cases h : c = t
    · subst h
      simp [doubleChar, collapseChar, ih]
    · simp only [doubleChar, if_neg h]
      rw [collapseChar_cons_of_ne t c _ h, ih]

theorem isPrefixOf_append_head (q s t : List Char) (c : Char) (hc : c ∈ q → False) :
    q.isPrefixOf (s ++ c :: t) = q.isPrefixOf s := by
  induction q generalizing s with
  | nil => simp [List.isPrefixOf]
  | cons a q' ih =>
    rw [List.mem_cons] at hc
    have hc1 : ¬(c = a) := fun h => hc (Or.inl h)
    have hc2 : c ∈ q' → False := fun h => hc (Or.inr h)
    cases s with
    | nil =>
      have hac : (a == c) = false := beq_eq_false_iff_ne.mpr (fun h => hc1 h.symm)
      simp [List.isPrefixOf, hac]
    | cons b s' =>
      simp only [List.cons_append, List.isPrefixOf, List.append_eq]
      rw [ih _ hc2]

theorem countOccs_append_limitSfx (a : List Char) :
    countOccs limitChars (a ++ (' ' :: "limit 80".data)) = countOccs limitChars a + 1 := by
  induction a with
  | nil => decide
  | cons c a' ih =>
    have hpref := isPrefixOf_append_head limitChars (c :: a') ("limit 80".data) ' ' (by decide)
    simp only [List.cons_append] at hpref ⊢
    rw [countOccs, countOccs, hpref, ih]
    omega

/-! ## Claim theorems -/

/-- C7: for every text value, `_serialize_value_for_sql` produces a
single-quoted literal whose body escapes backslashes first (doubling
them) and then single quotes (doubling them), and reversing the escaping
— collapsing doubled quotes, then doubled backslashes — reconstructs the
original text exactly. -/
theorem serialize_text_escape_roundtrip (s : String) :
    _serialize_value_for_sql (.str s) = .ok (sqS ++ String.mk (escapeSqlText s.data) ++ sqS)
    ∧ unescapeSqlText (escapeSqlText s.data) = s.data := by
  refine ⟨rfl, ?_⟩
  unfold unescapeSqlText escapeSqlText
  rw [collapseChar_doubleChar, collapseChar_doubleChar]

/-- C2 (refuted): `_serialize_value_for_sql` is NOT total over the values
reachable from a dataframe sample.  On a two-element array the guard
`if pd.isna(value)` coerces an elementwise boolean array to `bool`,
which raises `ValueError`; the function's own list branch is unreachable
for such inputs. -/
theorem serialize_fails_on_multielement_array :
    _serialize_value_for_sql (.list [.scalar "1", .scalar "2"]) = .error ambiguousTruthMsg :=
  rfl

/-- C5: if the cleaned text contains no case-insensitive occurrence of
`"limit"`, `cleanup_sql` appends exactly one trailing ` limit 80` clause
(the occurrence count of the token in the result is exactly 1); if the
cleaned text already contains `"limit"` in any case, `cleanup_sql`
returns the cleaned text unchanged, leaving the number of limiting
clauses as it was. -/
theorem cleanup_limit_clause (s : String) :
    (countOccs limitChars (lowerChars (preCleanChars s.data)) = 0 →
      (cleanup_sql s).data = preCleanChars s.data ++ (" limit " ++ toString MAX_NUM_ROWS).data
      ∧ countOccs limitChars (lowerChars (cleanup_sql s).data) = 1)
    ∧ (countOccs limitChars (lowerChars (preCleanChars s.data)) ≠ 0 →
      (cleanup_sql s).data = preCleanChars s.data) := by
  constructor
  · intro h
    have hif : cleanup_sql s
        = String.mk (preCleanChars s.data ++ (" limit " ++ toString MAX_NUM_ROWS).data) := by
      unfold cleanup_sql
      rw [if_pos h]
    refine ⟨by rw [hif], ?_⟩
    rw [hif]
    show countOccs limitChars
        (lowerChars (preCleanChars s.data ++ (" limit " ++ toString MAX_NUM_ROWS).data)) = 1
    unfold lowerChars
    rw [List.map_append]
    have happ : (" limit " ++ toString MAX_NUM_ROWS).data.map Char.toLower
        = ' ' :: "limit 80".data := by decide
    rw [happ, countOccs_append_limitSfx]
    unfold lowerChars at h
    omega
  · intro h
    unfold cleanup_sql
    rw [if_neg h]

/-- C1: whenever the cleaned SQL text contains a case-insensitive
word-boundary occurrence of a disallowed keyword, `run_bigquery_validation`
returns a result whose error message states the operation is disallowed
and whose row field is empty, and the execution backend is never
invoked. -/
theorem validation_rejects_disallowed (sql : String) (backend : String → ExecOutcome)
    (st : List (String × List BQRow))
    (h : hasDisallowed (cleanup_sql sql).data = true) :
    (run_bigquery_validation sql backend st).result.query_result = none
    ∧ (run_bigquery_validation sql backend st).result.error_message
        = some "Invalid SQL: Contains disallowed DML/DDL operations."
    ∧ (run_bigquery_validation sql backend st).backendInvoked = false := by
  simp [run_bigquery_validation, h]

/-- Witness for C1 at the spec's example `DROP TABLE x`. -/
theorem validation_rejects_disallowed_w :
    hasDisallowed (cleanup_sql "DROP TABLE x").data = true
    ∧ (run_bigquery_validation "DROP TABLE x" (fun _ => .success ["x"] []) []).result.error_message
        = some "Invalid SQL: Contains disallowed DML/DDL operations."
    ∧ (run_bigquery_validation "DROP TABLE x" (fun _ => .success ["x"] []) []).backendInvoked
        = false :=
  ⟨by decide,
   (validation_rejects_disallowed "DROP TABLE x" (fun _ => .success ["x"] []) [] (by decide)).2.1,
   (validation_rejects_disallowed "DROP TABLE x" (fun _ => .success ["x"] []) [] (by decide)).2.2⟩

/-- C3: if the SQL passes the keyword gate and executing it raises any
fault, `run_bigquery_validation` catches it and returns a result whose
error message carries the fault's message (prefixed `Invalid SQL: `); it
returns normally, never re-raising (the model is a total function whose
only fault channel is the backend input). -/
theorem validation_catches_fault (sql : String) (backend : String → ExecOutcome)
    (st : List (String × List BQRow)) (m : String)
    (h1 : hasDisallowed (cleanup_sql sql).data = false)
    (h2 : backend (cleanup_sql sql) = .fault m) :
    (run_bigquery_validation sql backend st).result.query_result = none
    ∧ (run_bigquery_validation sql backend st).result.error_message
        = some ("Invalid SQL: " ++ m) := by
  simp [run_bigquery_validation, h1, h2]

/-- Witness for C3 at a concrete faulting backend. -/
theorem validation_catches_fault_w :
    hasDisallowed (cleanup_sql "select 1").data = false
    ∧ (run_bigquery_validation "select 1" (fun _ => .fault "boom") []).result.query_result = none
    ∧ (run_bigquery_validation "select 1" (fun _ => .fault "boom") []).result.error_message
        = some ("Invalid SQL: " ++ "boom") :=
  ⟨by decide,
   (validation_catches_fault "select 1" (fun _ => .fault "boom") [] "boom" (by decide) rfl).1,
   (validation_catches_fault "select 1" (fun _ => .fault "boom") [] "boom" (by decide) rfl).2⟩

/-- C4: whatever the input and the backend's behaviour, when
`run_bigquery_validation` returns a row list it contains at most
`MAX_NUM_ROWS` (80) rows — the client-side cap is applied
unconditionally, independently of `LIMIT`-clause injection. -/
theorem validation_row_cap (sql : String) (backend : String → ExecOutcome)
    (st : List (String × List BQRow)) (rs : List BQRow)
    (h : (run_bigquery_validation sql backend st).result.query_result = some rs) :
    rs.length ≤ MAX_NUM_ROWS := by
  by_cases hd : hasDisallowed (cleanup_sql sql).data = true
  · simp [run_bigquery_validation, hd] at h
  · cases hb : backend (cleanup_sql sql) with
    | fault m => simp [run_bigquery_validation, hd, hb] at h
    | success sch rows =>
      by_cases hs : sch.isEmpty = true
      · simp [run_bigquery_validation, hd, hb, hs] at h
      · simp [run_bigquery_validation, hd, hb, hs] at h
        rw [← h]
        simp [List.length_take]

set_option maxRecDepth 8192 in
/-- Witness for C4 with a backend returning 200 rows. -/
theorem validation_row_cap_w :
    (run_bigquery_validation "select 1"
        (fun _ => .success ["a"] (List.replicate 200 [("a", BQValue.other "1")])) []).result.query_result
      = some ((((List.replicate 200 [("a", BQValue.other "1")])).map shapeRow).take MAX_NUM_ROWS)
    ∧ ((((List.replicate 200 [("a", BQValue.other "1")])).map shapeRow).take MAX_NUM_ROWS).length
        ≤ MAX_NUM_ROWS :=
  ⟨rfl,
   validation_row_cap "select 1"
      (fun _ => .success ["a"] (List.replicate 200 [("a", BQValue.other "1")])) [] _ rfl⟩

/-- C6: for every input and backend behaviour, the returned result has
exactly one of the row field and the error-message field populated. -/
theorem validation_result_exclusive (sql : String) (backend : String → ExecOutcome)
    (st : List (String × List BQRow)) :
    ((run_bigquery_validation sql backend st).result.query_result = none
      ∧ (∃ m, (run_bigquery_validation sql backend st).result.error_message = some m))
    ∨ ((∃ rs, (run_bigquery_validation sql backend st).result.query_result = some rs)
      ∧ (run_bigquery_validation sql backend st).result.error_message = none) := by
  by_cases hd : hasDisallowed (cleanup_sql sql).data = true
  · left; simp [run_bigquery_validation, hd]
  · cases hb : backend (cleanup_sql sql) with
    | fault m => left; simp [run_bigquery_validation, hd, hb]
    | success sch rows =>
      by_cases hs : sch.isEmpty = true
      · left; simp [run_bigquery_validation, hd, hb, hs]
      · right; simp [run_bigquery_validation, hd, hb, hs]

/-- C10: the session state is written if and only if execution succeeds
with a (truthy) column schema: on keyword rejection, on an execution
fault, and on a no-results success the state is returned unchanged; on a
success with schema the shaped, capped row list is stored under
`"query_result"`. -/
theorem validation_state_write (sql : String) (backend : String → ExecOutcome)
    (st : List (String × List BQRow)) :
    (hasDisallowed (cleanup_sql sql).data = true
      → (run_bigquery_validation sql backend st).state = st)
    ∧ (∀ m, backend (cleanup_sql sql) = .fault m
      → (run_bigquery_validation sql backend st).state = st)
    ∧ (∀ sch rows, backend (cleanup_sql sql) = .success sch rows → sch.isEmpty = true
      → (run_bigquery_validation sql backend st).state = st)
    ∧ (∀ sch rows, hasDisallowed (cleanup_sql sql).data = false
      → backend (cleanup_sql sql) = .success sch rows → sch.isEmpty = false
      → (run_bigquery_validation sql backend st).state
          = stateSet st "query_result" ((rows.map shapeRow).take MAX_NUM_ROWS)) := by
  refine ⟨?_, ?_, ?_, ?_⟩
  · intro h; simp [run_bigquery_validation, h]
  · intro m hb
    by_cases hd : hasDisallowed (cleanup_sql sql).data = true
    · simp [run_bigquery_validation, hd]
    · simp [run_bigquery_validation, hd, hb]
  · intro sch rows hb hs
    by_cases hd : hasDisallowed (cleanup_sql sql).data = true
    · simp [run_bigquery_validation, hd]
    · simp [run_bigquery_validation, hd, hb, hs]
  · intro sch rows hd hb hs
    simp [run_bigquery_validation, hd, hb, hs]

/-- Witness for C10: a success-with-schema run writes the shaped rows to
the session state. -/
theorem validation_state_write_w :
    (run_bigquery_validation "select 1"
        (fun _ => .success ["a"] [[("a", BQValue.other "1")]]) []).state
      = stateSet [] "query_result" (([[("a", BQValue.other "1")]].map shapeRow).take MAX_NUM_ROWS) :=
  (validation_state_write "select 1" (fun _ => .success ["a"] [[("a", BQValue.other "1")]]) []).2.2.2
    ["a"] [[("a", BQValue.other "1")]] (by decide) rfl rfl

/-- C8 (refuted as stated): a datetime value carrying a time component is
NOT passed through unchanged by result shaping — because
`datetime.datetime` is a subclass of `datetime.date`, the check
`isinstance(value, datetime.date)` also fires for it and the value is
converted to its `YYYY-MM-DD` text, dropping the time component. -/
theorem shaping_datetime_cex :
    (run_bigquery_validation "select ts from t"
        (fun _ => .success ["ts"] [[("ts", BQValue.datetime 2024 1 5 "10:30:00")]]) []).result.query_result
      = some [[("ts", BQValue.str "2024-01-05")]]
    ∧ BQValue.str "2024-01-05" ≠ BQValue.datetime 2024 1 5 "10:30:00" :=
  ⟨rfl, by decide⟩

/-- C8 (amended): in result shaping every value that is an instance of
the Python date class — date-only values AND datetime/timestamp values,
since `datetime.datetime` subclasses `datetime.date` — is converted to
the fixed `YYYY-MM-DD` text form, and every value that is not an
instance of the date class is passed through unchanged. -/
theorem shaping_date_instances (sql : String) (backend : String → ExecOutcome)
    (st : List (String × List BQRow)) (sch : List String) (rows : List BQRow)
    (h1 : hasDisallowed (cleanup_sql sql).data = false)
    (h2 : backend (cleanup_sql sql) = .success sch rows)
    (h3 : sch.isEmpty = false) :
    (run_bigquery_validation sql backend st).result.query_result
      = some ((rows.map shapeRow).take MAX_NUM_ROWS)
    ∧ (∀ y m d, shapeValue (.date y m d) = .str (pad4 y ++ "-" ++ pad2 m ++ "-" ++ pad2 d))
    ∧ (∀ y m d tm, shapeValue (.datetime y m d tm) = .str (pad4 y ++ "-" ++ pad2 m ++ "-" ++ pad2 d))
    ∧ (∀ v, isinstanceDate v = false → shapeValue v = v) := by
  refine ⟨by simp [run_bigquery_validation, h1, h2, h3], ?_, ?_, ?_⟩
  · intro y m d; rfl
  · intro y m d tm; rfl
  · intro v hv; simp [shapeValue, hv]

/-- Witness for C8's amended theorem: a concrete run containing a date, a
datetime and a plain value, shaped accordingly. -/
theorem shaping_date_instances_w :
    (run_bigquery_validation "select d from t"
        (fun _ => .success ["d"] [[("d", BQValue.date 2024 1 5), ("x", BQValue.other "7")]]) []).result.query_result
      = some (([[("d", BQValue.date 2024 1 5), ("x", BQValue.other "7")]].map shapeRow).take MAX_NUM_ROWS)
    ∧ shapeValue (.date 2024 1 5) = .str (pad4 2024 ++ "-" ++ pad2 1 ++ "-" ++ pad2 5)
    ∧ shapeValue (.other "7") = .other "7" := by
  have h := shaping_date_instances "select d from t"
    (fun _ => .success ["d"] [[("d", BQValue.date 2024 1 5), ("x", BQValue.other "7")]]) []
    ["d"] [[("d", BQValue.date 2024 1 5), ("x", BQValue.other "7")]] (by decide) rfl rfl
  exact ⟨h.1, h.2.1 2024 1 5, h.2.2.2 (.other "7") rfl⟩

theorem get_bigquery_schema_append (proj ds : String)
    (a b : List (TableObj × SampleResult)) :
    get_bigquery_schema proj ds (a ++ b)
      = get_bigquery_schema proj ds a ++ get_bigquery_schema proj ds b := by
  induction a with
  | nil => simp [get_bigquery_schema]
  | cons t ts ih =>
    simp only [List.cons_append, get_bigquery_schema, List.append_eq, ih, String.append_assoc]

/-- C9: a listed TABLE whose sample-row fetch fails does not abort
introspection: its block is exactly the CREATE statement followed by the
could-not-retrieve-sample-rows comment (hence contains no INSERT
statement), every REPEATED column renders as `ARRAY<type>`, and the
blocks of the tables before and after it are produced as usual. -/
theorem schema_sample_failure_recovery (proj ds : String)
    (pre post : List (TableObj × SampleResult)) (tbl : TableObj) (m : String)
    (htype : tbl.table_type = "TABLE") :
    get_bigquery_schema proj ds (pre ++ (tbl, .failure m) :: post)
      = get_bigquery_schema proj ds pre
        ++ (createTableStmt (tableRefStr proj ds tbl.name) tbl
            ++ sampleNote (tablePath proj ds tbl.name))
        ++ get_bigquery_schema proj ds post
    ∧ (∀ f ∈ tbl.schema, f.mode = "REPEATED"
        → renderColType f = "ARRAY<" ++ f.field_type ++ ">") := by
  constructor
  · rw [get_bigquery_schema_append]
    have hblock : tableBlock proj ds (tbl, .failure m)
        = createTableStmt (tableRefStr proj ds tbl.name) tbl
          ++ sampleNote (tablePath proj ds tbl.name) := by
      simp [tableBlock, htype, sampleBlock]
    rw [get_bigquery_schema, hblock]
    simp [String.append_assoc]
  · intro f _ hm
    simp [renderColType, hm]

set_option maxRecDepth 8192 in
/-- Witness for C9 at the spec's end-to-end example: a TABLE with one
REPEATED INT64 column `scores` and a failing sample fetch yields a block
with `ARRAY<INT64>`, the failure note, and no `INSERT`. -/
theorem schema_sample_failure_recovery_w :
    get_bigquery_schema "p" "d" ([] ++ (sampleTbl, SampleResult.failure "boom") :: [])
      = get_bigquery_schema "p" "d" []
        ++ (createTableStmt (tableRefStr "p" "d" sampleTbl.name) sampleTbl
            ++ sampleNote (tablePath "p" "d" sampleTbl.name))
        ++ get_bigquery_schema "p" "d" []
    ∧ countOccs "INSERT".data
        (get_bigquery_schema "p" "d" [(sampleTbl, SampleResult.failure "boom")]).data = 0
    ∧ countOccs "ARRAY<INT64>".data
        (get_bigquery_schema "p" "d" [(sampleTbl, SampleResult.failure "boom")]).data ≠ 0 :=
  ⟨(schema_sample_failure_recovery "p" "d" [] [] sampleTbl "boom" rfl).1,
   by decide, by decide⟩

/-- Witness for C5 at a concrete SQL text without a `limit` token. -/
theorem cleanup_limit_clause_w :
    countOccs limitChars (lowerChars (preCleanChars "select 1".data)) = 0
    ∧ (cleanup_sql "select 1").data
        = preCleanChars "select 1".data ++ (" limit " ++ toString MAX_NUM_ROWS).data
    ∧ countOccs limitChars (lowerChars (cleanup_sql "select 1").data) = 1 :=
  ⟨by decide, ((cleanup_limit_clause "select 1").1 (by decide)).1,
   ((cleanup_limit_clause "select 1").1 (by decide)).2⟩
